import Mathlib

/-!
Verification of the mcp-documentation-scraper core: document index + search
(`src/indexer/document_indexer.py`), local cache (`src/cache/local_cache.py`),
tool capability dispatch (`src/tools/base_tool.py`, `search_tool.py`,
`indexing_tool.py`, `scraping_tool.py`) and the HTTP dispatcher
(`src/server.py`).

The embedding is I/O-free: the JSON files backing the index and the cache are
modelled as in-memory state (a list of entries, resp. a key-valued map), and
each Python method becomes a pure Lean function on that state.  Fallible
Python code (code that may raise) is modelled with `Except String`, an
exception being `.error msg` with `msg` the Python exception text.
-/

namespace DocScraper

/-! ### Python string containment

`needle in hay` on Python strings is contiguous-substring containment,
case-sensitive; the indexer lowers both sides first with `str.lower`
(modelled by `String.toLower`). -/

/-- Boolean contiguous-substring test on character lists: `infixB n h` is
`true` iff `n` occurs as a contiguous run inside `h` (Python `n in h`). -/
def infixB (needle : List Char) : List Char → Bool
  | [] => needle.isPrefixOf []
  | c :: t => needle.isPrefixOf (c :: t) || infixB needle t

/-- Python `needle in hay` on strings. -/
def strIn (needle hay : String) : Bool :=
  infixB needle.data hay.data

/-- Python `str.lower`, character by character (structural counterpart of
`String.toLower`, which the kernel cannot evaluate). -/
def strLower (s : String) : String :=
  ⟨s.data.map Char.toLower⟩

/-! ### DocumentIndexer (`src/indexer/document_indexer.py`)

The on-disk index file is a JSON array; its elements, always written by
`index_document`, are objects with the five string fields below (`DocEntry`).
The input to `index_document` is a Python dict whose relevant fields may be
absent, modelled with `Option` (`DocData`); `data.get(k, d)` is
`Option.getD`, `data.get(k)` (no default) is the `Option` itself. -/

/-- Input document dict for `DocumentIndexer.index_document`: each field
present (`some`) or absent (`none`), as `data.get` distinguishes. -/
structure DocData where
  url : Option String
  title : Option String
  content : Option String
  summary : Option String
  indexed_at : Option String
deriving DecidableEq, Repr

/-- A stored index entry, as written into the JSON array by
`index_document` (all five fields always present). -/
structure DocEntry where
  url : String
  title : String
  content : String
  summary : String
  indexed_at : String
deriving DecidableEq, Repr

/-- The `doc_entry` dict built by `index_document`: every field defaults to
`""` except `indexed_at`, whose default is `str(json.dumps({}))`, i.e. the
two-character string `"\x7b\x7d"`. -/
def mkEntry (data : DocData) : DocEntry :=
  { url := data.url.getD ""
    title := data.title.getD ""
    content := data.content.getD ""
    summary := data.summary.getD ""
    indexed_at := data.indexed_at.getD "\x7b\x7d" }

/-- `DocumentIndexer.index_document` on the index state: drops every stored
entry `doc` with `doc.get('url') != data.get('url')` false — i.e. keeps those
with `some doc.url ≠ data.url` — then appends the new entry. -/
def index_document (index : List DocEntry) (data : DocData) : List DocEntry :=
  (index.filter fun doc => decide (some doc.url ≠ data.url)) ++ [mkEntry data]

/-- The score the `search` loop assigns to one stored entry: `+3` when the
lowered query occurs in the lowered title, `+1` when it occurs in the lowered
content. -/
def scoreEntry (query : String) (doc : DocEntry) : Nat :=
  (if strIn (strLower query) (strLower doc.title) then 3 else 0) +
  (if strIn (strLower query) (strLower doc.content) then 1 else 0)

/-- One element of the `results` list built by `search`: the entry together
with its `'score'` field. -/
structure SearchResult where
  entry : DocEntry
  score : Nat
deriving DecidableEq, Repr

/-- The `results` list of `search` before sorting: every stored entry with
positive score, in index order, paired with its score. -/
def scoreResults (index : List DocEntry) (query : String) : List SearchResult :=
  index.filterMap fun doc =>
    if 0 < scoreEntry query doc then some ⟨doc, scoreEntry query doc⟩ else none

/-- `results.sort(key=lambda x: x['score'], reverse=True)`: a stable
descending sort by score (CPython `list.sort` is stable, and `reverse=True`
preserves the relative order of equal keys). -/
def sortResults (rs : List SearchResult) : List SearchResult :=
  rs.mergeSort fun a b => decide (b.score ≤ a.score)

/-- `DocumentIndexer.search` on the index state: score, keep positive scores,
stable-sort descending, truncate to `max_results` (default `10`). -/
def search (index : List DocEntry) (query : String) (max_results : Nat := 10) :
    List SearchResult :=
  (sortResults (scoreResults index query)).take max_results

/-! ### LocalCache (`src/cache/local_cache.py`)

`self.cache` is a Python dict from document ids (strings) to arbitrary
document values; it is modelled as a total function into `Option`.  The
snapshot file is write-through (`save_cache` after every mutation) and plays
no further role in an I/O-free model; `load_cache` falls back to `\x7b\x7d`
(the empty dict) when the file is missing or corrupt, giving `emptyCache`. -/

/-- The in-memory dict `self.cache` of `LocalCache`. -/
def Cache (α : Type) : Type := String → Option α

/-- The cache of a cold start: `load_cache` returning the empty dict. -/
def emptyCache {α : Type} : Cache α := fun _ => none

/-- `LocalCache.cache_document`: `self.cache[doc_id] = data`. -/
def cache_document {α : Type} (c : Cache α) (doc_id : String) (data : α) : Cache α :=
  fun k => if k = doc_id then some data else c k

/-- `LocalCache.get_document`: `self.cache.get(doc_id)`. -/
def get_document {α : Type} (c : Cache α) (doc_id : String) : Option α :=
  c doc_id

/-- A sequence of `cache_document` calls applied in order. -/
def applyPuts {α : Type} (c : Cache α) (puts : List (String × α)) : Cache α :=
  puts.foldl (fun c kv => cache_document c kv.1 kv.2) c

/-! ### Tool capability dispatch (`src/tools/`)

`parameters` is a Python dict; only key membership and item lookup matter to
the dispatch layer, so it is modelled as an association list over an
arbitrary value type `α` (first binding wins, as a dict has unique keys).
Tool behaviours (`search`, `add_document`, …) are abstract in the source —
the base classes raise `NotImplementedError`, subclasses supply the work — so
each is a function field returning `Except String δ`: `.error msg` models a
raised exception with text `msg`, of which `NotImplementedError` is one
instance.  `execute` itself is concrete and is translated faithfully. -/

/-- A Python dict of call parameters, as an association list. -/
abbrev Params (α : Type) : Type := List (String × α)

/-- Python `key in parameters`. -/
def hasKey {α : Type} (p : Params α) (k : String) : Bool :=
  p.any fun kv => decide (kv.1 = k)

/-- Python `parameters.get(key)` / `parameters.get(key, default)` source. -/
def getOpt {α : Type} (p : Params α) (k : String) : Option α :=
  (p.find? fun kv => decide (kv.1 = k)).map Prod.snd

/-- Python `parameters[key]`: a missing key raises `KeyError(key)`, whose
`str` is the key in single quotes. -/
def getItem {α : Type} (p : Params α) (k : String) : Except String α :=
  match getOpt p k with
  | some v => .ok v
  | none => .error ("\x27" ++ k ++ "\x27")

/-- Binding `f(**parameters)` against a Python signature with required
parameters `req`, optional (defaulted) parameters `opt`, and `kwargs = true`
when the signature ends in `**kwargs`: raises `TypeError` when a required
name is missing, or (without `**kwargs`) when a key matches no parameter. -/
def pyBind {α : Type} (req opt : List String) (kwargs : Bool) (p : Params α) :
    Except String Unit :=
  match req.find? fun k => ¬ hasKey p k with
  | some k => .error ("missing 1 required positional argument: \x27" ++ k ++ "\x27")
  | none =>
    if kwargs then .ok ()
    else
      match p.find? fun kv => ¬ (kv.1 ∈ req ∨ kv.1 ∈ opt) with
      | some kv => .error ("got an unexpected keyword argument \x27" ++ kv.1 ++ "\x27")
      | none => .ok ()

/-- The `ToolResult` dataclass (`base_tool.py`): `metadata`, which `execute`
never sets, is omitted. -/
structure ToolResult (δ : Type) where
  success : Bool
  data : Option δ := none
  error : Option String := none
deriving DecidableEq, Repr

/-- The `input_schema` dict of a capability, reduced to the one key the
dispatch layer reads: `input_schema.get("required", [])` distinguishes an
absent `"required"` key (`none`) from a present list. -/
structure InputSchema where
  required : Option (List String)
deriving DecidableEq, Repr

/-- The `ToolCapability` dataclass: `description` and the non-`required`
schema keys are never read by the dispatch layer and are omitted. -/
structure ToolCapability where
  name : String
  input_schema : InputSchema
deriving DecidableEq, Repr

/-- `BaseTool.validate_parameters`: find the first capability with the given
name (`next(..., None)`); unknown name gives `False`; otherwise every key of
the schema's `required` list (default `[]`) must be in `parameters`. -/
def validate_parameters {α : Type} (capabilities : List ToolCapability)
    (capability_name : String) (parameters : Params α) : Bool :=
  match capabilities.find? fun cap => decide (cap.name = capability_name) with
  | none => false
  | some capability =>
      (capability.input_schema.required.getD []).all fun param => hasKey parameters param

/-- The `capabilities` property of `SearchTool` (names and schema `required`
lists as declared in `search_tool.py`). -/
def searchCapabilities : List ToolCapability :=
  [⟨"search", ⟨some ["query"]⟩⟩,
   ⟨"suggest", ⟨some ["partial_query"]⟩⟩,
   ⟨"similar", ⟨some ["document_id"]⟩⟩]

/-- The `capabilities` property of `IndexingTool` (`indexing_tool.py`); the
last three schemas have no `"required"` key. -/
def indexingCapabilities : List ToolCapability :=
  [⟨"add_document", ⟨some ["document"]⟩⟩,
   ⟨"update_document", ⟨some ["document_id", "updates"]⟩⟩,
   ⟨"remove_document", ⟨some ["document_id"]⟩⟩,
   ⟨"get_document", ⟨some ["document_id"]⟩⟩,
   ⟨"list_documents", ⟨none⟩⟩,
   ⟨"get_index_stats", ⟨none⟩⟩,
   ⟨"rebuild_index", ⟨none⟩⟩]

/-- The `capabilities` property of `ScrapingTool` (`scraping_tool.py`). -/
def scrapingCapabilities : List ToolCapability :=
  [⟨"scrape_url", ⟨some ["url"]⟩⟩,
   ⟨"scrape_multiple_urls", ⟨some ["urls"]⟩⟩,
   ⟨"parse_content", ⟨some ["html"]⟩⟩]

/-- A `ToolResult(success=False, error=...)`. -/
def failResult {δ : Type} (msg : String) : ToolResult δ :=
  { success := false, error := some msg }

/-- A `ToolResult(success=True, data=...)`. -/
def okResult {δ : Type} (d : δ) : ToolResult δ :=
  { success := true, data := some d }

/-- The shared `except Exception` clause of every tool's `execute`: a fault
`e` raised inside the `try` block becomes
`ToolResult(success=False, error=f"Error executing \x7bcapability_name\x7d: \x7bstr(e)\x7d")`. -/
def handleExecute {δ : Type} (capability_name : String)
    (body : Except String (ToolResult δ)) : ToolResult δ :=
  match body with
  | .ok r => r
  | .error e => failResult ("Error executing " ++ capability_name ++ ": " ++ e)

/-- An implementation of the abstract `SearchTool` behaviours.  Each field
receives the parameter dict the `**parameters` call would bind. -/
structure SearchToolImpl (α δ : Type) where
  search : Params α → Except String δ
  suggest : Params α → Except String δ
  similar : Params α → Except String δ

/-- The `try` block of `SearchTool.execute`: dispatch on the capability name,
binding `**parameters` against the declared signatures
(`search(query, search_type="hybrid", limit=10, filters=None, include_snippets=True)`,
`suggest(partial_query, limit=5)`, `similar(document_id, limit=5, threshold=0.5)`). -/
def SearchToolImpl.executeTry {α δ : Type} (t : SearchToolImpl α δ)
    (capability_name : String) (parameters : Params α) :
    Except String (ToolResult δ) :=
  if capability_name = "search" then
    match pyBind ["query"] ["search_type", "limit", "filters", "include_snippets"]
        false parameters with
    | .error e => .error e
    | .ok _ =>
      match t.search parameters with
      | .error e => .error e
      | .ok r => .ok (okResult r)
  else if capability_name = "suggest" then
    match pyBind ["partial_query"] ["limit"] false parameters with
    | .error e => .error e
    | .ok _ =>
      match t.suggest parameters with
      | .error e => .error e
      | .ok r => .ok (okResult r)
  else if capability_name = "similar" then
    match pyBind ["document_id"] ["limit", "threshold"] false parameters with
    | .error e => .error e
    | .ok _ =>
      match t.similar parameters with
      | .error e => .error e
      | .ok r => .ok (okResult r)
  else
    .ok (failResult ("Unknown capability: " ++ capability_name))

/-- `SearchTool.execute`: the `try` block under the blanket `except`. -/
def SearchToolImpl.execute {α δ : Type} (t : SearchToolImpl α δ)
    (capability_name : String) (parameters : Params α) : ToolResult δ :=
  handleExecute capability_name (t.executeTry capability_name parameters)

/-- An implementation of the abstract `IndexingTool` behaviours.
`add_document` receives the raw `parameters["document"]` value and
`parameters.get("update_if_exists", False)` (`none` meaning absent, hence the
`False` default); constructing the `Document(**doc_data)` is part of its
fallible work.  `update_document` and `remove_document` receive the values
`execute` extracts; `get_document` and `list_documents` receive the bound
parameter dict; `rebuild_index` receives `parameters.get("force", False)`. -/
structure IndexingToolImpl (α δ : Type) where
  add_document : α → Option α → Except String δ
  update_document : α → α → Except String δ
  remove_document : α → Except String δ
  get_document : Params α → Except String δ
  list_documents : Params α → Except String δ
  get_index_stats : Unit → Except String δ
  rebuild_index : Option α → Except String δ

/-- The `try` block of `IndexingTool.execute`: the `parameters[...]`
subscripts raise `KeyError` when absent; `get_document` and `list_documents`
are called as `**parameters` against signatures
`get_document(document_id, include_content=True)` and
`list_documents(source=None, tags=None, limit=50, offset=0, include_content=False)`;
`get_index_stats` takes no arguments and ignores `parameters`. -/
def IndexingToolImpl.executeTry {α δ : Type} (t : IndexingToolImpl α δ)
    (capability_name : String) (parameters : Params α) :
    Except String (ToolResult δ) :=
  if capability_name = "add_document" then
    match getItem parameters "document" with
    | .error e => .error e
    | .ok doc_data =>
      match t.add_document doc_data (getOpt parameters "update_if_exists") with
      | .error e => .error e
      | .ok r => .ok (okResult r)
  else if capability_name = "update_document" then
    match getItem parameters "document_id" with
    | .error e => .error e
    | .ok i =>
      match getItem parameters "updates" with
      | .error e => .error e
      | .ok u =>
        match t.update_document i u with
        | .error e => .error e
        | .ok r => .ok (okResult r)
  else if capability_name = "remove_document" then
    match getItem parameters "document_id" with
    | .error e => .error e
    | .ok i =>
      match t.remove_document i with
      | .error e => .error e
      | .ok r => .ok (okResult r)
  else if capability_name = "get_document" then
    match pyBind ["document_id"] ["include_content"] false parameters with
    | .error e => .error e
    | .ok _ =>
      match t.get_document parameters with
      | .error e => .error e
      | .ok r => .ok (okResult r)
  else if capability_name = "list_documents" then
    match pyBind [] ["source", "tags", "limit", "offset", "include_content"]
        false parameters with
    | .error e => .error e
    | .ok _ =>
      match t.list_documents parameters with
      | .error e => .error e
      | .ok r => .ok (okResult r)
  else if capability_name = "get_index_stats" then
    match t.get_index_stats () with
    | .error e => .error e
    | .ok r => .ok (okResult r)
  else if capability_name = "rebuild_index" then
    match t.rebuild_index (getOpt parameters "force") with
    | .error e => .error e
    | .ok r => .ok (okResult r)
  else
    .ok (failResult ("Unknown capability: " ++ capability_name))

/-- `IndexingTool.execute`. -/
def IndexingToolImpl.execute {α δ : Type} (t : IndexingToolImpl α δ)
    (capability_name : String) (parameters : Params α) : ToolResult δ :=
  handleExecute capability_name (t.executeTry capability_name parameters)

/-- An implementation of the abstract `ScrapingTool` behaviours; every
signature ends in `**kwargs`, so binding absorbs extra keys. -/
structure ScrapingToolImpl (α δ : Type) where
  scrape_url : Params α → Except String δ
  scrape_multiple_urls : Params α → Except String δ
  parse_content : Params α → Except String δ

/-- The `try` block of `ScrapingTool.execute`: signatures
`scrape_url(url, **kwargs)`, `scrape_multiple_urls(urls, **kwargs)`,
`parse_content(html, url=None, **kwargs)`. -/
def ScrapingToolImpl.executeTry {α δ : Type} (t : ScrapingToolImpl α δ)
    (capability_name : String) (parameters : Params α) :
    Except String (ToolResult δ) :=
  if capability_name = "scrape_url" then
    match pyBind ["url"] [] true parameters with
    | .error e => .error e
    | .ok _ =>
      match t.scrape_url parameters with
      | .error e => .error e
      | .ok r => .ok (okResult r)
  else if capability_name = "scrape_multiple_urls" then
    match pyBind ["urls"] [] true parameters with
    | .error e => .error e
    | .ok _ =>
      match t.scrape_multiple_urls parameters with
      | .error e => .error e
      | .ok r => .ok (okResult r)
  else if capability_name = "parse_content" then
    match pyBind ["html"] ["url"] true parameters with
    | .error e => .error e
    | .ok _ =>
      match t.parse_content parameters with
      | .error e => .error e
      | .ok r => .ok (okResult r)
  else
    .ok (failResult ("Unknown capability: " ++ capability_name))

/-- `ScrapingTool.execute`. -/
def ScrapingToolImpl.execute {α δ : Type} (t : ScrapingToolImpl α δ)
    (capability_name : String) (parameters : Params α) : ToolResult δ :=
  handleExecute capability_name (t.executeTry capability_name parameters)

/-! ### Dispatcher (`src/server.py`, `call_tool`)

The three `_handle_*` coroutines call out to the scraper, indexer and cache
and may re-raise; they are abstract behaviours here.  `call_tool` matches the
tool name against the fixed registered set, returns the unknown-tool envelope
from inside the `try`, and converts any raised fault into
`ToolResponse(success=False, error=str(e))`. -/

/-- The `ToolResponse` pydantic model of `server.py`. -/
structure ToolResponse (δ : Type) where
  success : Bool
  data : Option δ := none
  error : Option String := none
deriving DecidableEq, Repr

/-- The handlers a server instance dispatches to (`_handle_scrape_documentation`,
`_handle_search_documentation`, `_handle_health_check`), each taking the
request's `arguments` dict. -/
structure ServerImpl (α δ : Type) where
  scrape_documentation : α → Except String δ
  search_documentation : α → Except String δ
  health_check : α → Except String δ

/-- `call_tool`: resolve the tool name, run the handler, wrap the result;
faults become `success=False` with `str(e)` as the error. -/
def call_tool {α δ : Type} (s : ServerImpl α δ) (tool : String) (arguments : α) :
    ToolResponse δ :=
  let wrap : Except String δ → ToolResponse δ := fun r =>
    match r with
    | .ok d => { success := true, data := some d }
    | .error e => { success := false, error := some e }
  if tool = "scrape_documentation" then wrap (s.scrape_documentation arguments)
  else if tool = "search_documentation" then wrap (s.search_documentation arguments)
  else if tool = "health_check" then wrap (s.health_check arguments)
  else { success := false, error := some ("Unknown tool: " ++ tool) }

/-- A `ToolResult` is well-formed when success carries no error and failure
carries no data but an error message. -/
def wfResult {δ : Type} (r : ToolResult δ) : Prop :=
  (r.success = true → r.error = none) ∧
  (r.success = false → r.data = none ∧ r.error ≠ none)

/-- A concrete server implementation used to witness the dispatcher claims:
scraping succeeds, search raises, health succeeds. -/
def exampleServer : ServerImpl Nat Nat :=
  { scrape_documentation := fun _ => .ok 1
    search_documentation := fun _ => .error "boom"
    health_check := fun _ => .ok 3 }

/-- A concrete `SearchTool` implementation whose `search` behaviour raises. -/
def exampleSearchTool : SearchToolImpl Nat Nat :=
  { search := fun _ => .error "boom"
    suggest := fun _ => .ok 1
    similar := fun _ => .ok 2 }

/-- A concrete `IndexingTool` implementation whose behaviours all succeed. -/
def exampleIndexingTool : IndexingToolImpl Nat Nat :=
  { add_document := fun _ _ => .ok 1
    update_document := fun _ _ => .ok 2
    remove_document := fun _ => .ok 3
    get_document := fun _ => .ok 4
    list_documents := fun _ => .ok 5
    get_index_stats := fun _ => .ok 6
    rebuild_index := fun _ => .ok 7 }

/-- A concrete `ScrapingTool` implementation whose behaviours all succeed. -/
def exampleScrapingTool : ScrapingToolImpl Nat Nat :=
  { scrape_url := fun _ => .ok 1
    scrape_multiple_urls := fun _ => .ok 2
    parse_content := fun _ => .ok 3 }


/-- A second, distinct `SearchTool` implementation (used to exhibit that
failed validation makes `execute` independent of the behaviours). -/
def exampleSearchTool2 : SearchToolImpl Nat Nat :=
  { search := fun _ => .ok 99
    suggest := fun _ => .error "x"
    similar := fun _ => .ok 98 }

/-- A second, distinct `IndexingTool` implementation. -/
def exampleIndexingTool2 : IndexingToolImpl Nat Nat :=
  { add_document := fun _ _ => .error "y"
    update_document := fun _ _ => .ok 12
    remove_document := fun _ => .ok 13
    get_document := fun _ => .ok 14
    list_documents := fun _ => .ok 15
    get_index_stats := fun _ => .ok 16
    rebuild_index := fun _ => .ok 17 }

/-- A second, distinct `ScrapingTool` implementation. -/
def exampleScrapingTool2 : ScrapingToolImpl Nat Nat :=
  { scrape_url := fun _ => .error "z"
    scrape_multiple_urls := fun _ => .ok 22
    parse_content := fun _ => .ok 23 }

/-! ## Helper lemmas -/

/-- The empty needle is contained in every haystack. -/
theorem infixB_nil (h : List Char) : infixB [] h = true := by
  cases h <;> simp [infixB, List.isPrefixOf]

/-- A needle is contained in any haystack that ends with it. -/
theorem infixB_append_right (pre n : List Char) : infixB n (pre ++ n) = true := by
  induction pre with
  | nil => cases n <;> simp [infixB, List.isPrefixOf_iff_prefix]
  | cons c t ih => simp [infixB, ih]

/-- `strIn` holds whenever the haystack is the needle preceded by a prefix. -/
theorem strIn_append_right (pre s : String) : strIn s (pre ++ s) = true := by
  simpa [strIn, String.data_append] using infixB_append_right pre.data s.data

/-- The empty query string is contained in every string. -/
theorem strIn_empty (hay : String) : strIn "" hay = true :=
  infixB_nil hay.data

/-- Against the empty query every entry scores `3 + 1 = 4`. -/
theorem scoreEntry_empty_query (doc : DocEntry) : scoreEntry "" doc = 4 := by
  have h : strLower "" = "" := rfl
  simp [scoreEntry, h, strIn_empty]

/-- Puts whose keys all differ from `k` do not change what `k` maps to. -/
theorem get_applyPuts_of_not_mem {α : Type} (puts : List (String × α)) (c : Cache α)
    (k : String) (h : ∀ kv ∈ puts, kv.1 ≠ k) :
    get_document (applyPuts c puts) k = get_document c k := by
  induction puts generalizing c with
  | nil => rfl
  | cons kv t ih =>
      have hk : kv.1 ≠ k := h kv (by simp)
      have ht : ∀ kv ∈ t, kv.1 ≠ k := fun x hx => h x (by simp [hx])
      have hne : ¬ (k = kv.1) := fun hkk => hk hkk.symm
      have : get_document (cache_document c kv.1 kv.2) k = get_document c k := by
        simp [get_document, cache_document, hne]
      calc get_document (applyPuts (cache_document c kv.1 kv.2) t) k
          = get_document (cache_document c kv.1 kv.2) k := ih _ ht
        _ = get_document c k := this

/-! ## Claim theorems -/

/-- C9.  Cache round-trip: `get_document k` immediately after
`cache_document k d` returns `some d` (a value equal to `d`), and
`get_document k` on a cache built from the empty cache by puts that never
used key `k` returns `none`. -/
theorem cache_roundtrip {α : Type} (c : Cache α) (k : String) (d : α)
    (puts : List (String × α)) (k' : String) (h : ∀ kv ∈ puts, kv.1 ≠ k') :
    get_document (cache_document c k d) k = some d ∧
    get_document (applyPuts emptyCache puts) k' = none := by
  constructor
  · simp [get_document, cache_document]
  · rw [get_applyPuts_of_not_mem puts emptyCache k' h]
    rfl

/-- Witness for C9 at a concrete cache state and keys. -/
theorem cache_roundtrip_witness :
    get_document (cache_document emptyCache "a" (5 : Nat)) "a" = some 5 ∧
    get_document (applyPuts emptyCache [("a", (1 : Nat)), ("b", 2)]) "zz" = none :=
  cache_roundtrip emptyCache "a" 5 [("a", 1), ("b", 2)] "zz" (by decide)

/-- C10.  Frame effect of a cache put: writing key `k` leaves the value
read at any other key `k'` unchanged. -/
theorem cache_put_frame {α : Type} (c : Cache α) (k k' : String) (d : α)
    (h : k' ≠ k) :
    get_document (cache_document c k d) k' = get_document c k' := by
  simp [get_document, cache_document, h]

/-- Witness for C10: after putting `"a" ↦ 7` then `"b" ↦ 9`, key `"a"` still
reads `7`. -/
theorem cache_put_frame_witness :
    get_document (cache_document (cache_document emptyCache "a" (7 : Nat)) "b" 9) "a" =
      some 7 :=
  (cache_put_frame (cache_document emptyCache "a" (7 : Nat)) "b" "a" 9
    (by decide)).trans (by decide)

/-- C7.  `validate_parameters` returns `false` when the named capability is
not among the tool's capabilities, and otherwise returns `true` iff every key
of the capability's schema `required` list (defaulting to `[]` when the
schema has no `"required"` key) is present in the parameters — presence only,
no type checking. -/
theorem validate_parameters_spec {α : Type} (capabilities : List ToolCapability)
    (capability_name : String) (parameters : Params α) :
    ((capabilities.find? fun cap => decide (cap.name = capability_name)) = none →
      validate_parameters capabilities capability_name parameters = false) ∧
    ∀ cap, (capabilities.find? fun c => decide (c.name = capability_name)) = some cap →
      (validate_parameters capabilities capability_name parameters = true ↔
        ∀ k ∈ cap.input_schema.required.getD [], hasKey parameters k = true) := by
  constructor
  · intro h
    simp [validate_parameters, h]
  · intro cap h
    simp [validate_parameters, h, List.all_eq_true]

/-- Witness for C7 on `SearchTool`'s declared capabilities: `"search"` with a
`query` parameter validates; an unknown capability does not. -/
theorem validate_parameters_spec_witness :
    validate_parameters searchCapabilities "search" [("query", (0 : Nat))] = true ∧
    validate_parameters searchCapabilities "bogus" ([] : Params Nat) = false := by
  constructor
  · exact ((validate_parameters_spec searchCapabilities "search"
      [("query", (0 : Nat))]).2 ⟨"search", ⟨some ["query"]⟩⟩ (by decide)).mpr (by decide)
  · exact (validate_parameters_spec searchCapabilities "bogus"
      ([] : Params Nat)).1 (by decide)

/-- C8.  Dispatcher contract of `call_tool`: for every request the result is
a well-formed `ToolResponse` (no exception escapes — faults appear only as
`error` strings); a tool name outside the registered set yields
`success=false` with error `"Unknown tool: <name>"`, which contains the
offending name; a known tool delegates to its handler, a raised fault
becoming `success=false` with the fault's message as the error and a normal
return becoming `success=true` with the handler's data. -/
theorem call_tool_dispatch {α δ : Type} (s : ServerImpl α δ) (tool : String)
    (arguments : α) :
    (tool ∉ (["scrape_documentation", "search_documentation", "health_check"] :
        List String) →
      call_tool s tool arguments =
        { success := false, data := none,
          error := some ("Unknown tool: " ++ tool) } ∧
      strIn tool ("Unknown tool: " ++ tool) = true) ∧
    (∀ e, s.search_documentation arguments = .error e →
      call_tool s "search_documentation" arguments =
        { success := false, data := none, error := some e }) ∧
    (∀ d, s.search_documentation arguments = .ok d →
      call_tool s "search_documentation" arguments =
        { success := true, data := some d, error := none }) ∧
    (∀ e, s.scrape_documentation arguments = .error e →
      call_tool s "scrape_documentation" arguments =
        { success := false, data := none, error := some e }) ∧
    (∀ e, s.health_check arguments = .error e →
      call_tool s "health_check" arguments =
        { success := false, data := none, error := some e }) ∧
    ((call_tool s tool arguments).success = true →
      (call_tool s tool arguments).error = none) ∧
    ((call_tool s tool arguments).success = false →
      (call_tool s tool arguments).data = none ∧
      (call_tool s tool arguments).error ≠ none) := by
  refine ⟨?_, ?_, ?_, ?_, ?_, ?_, ?_⟩
  · intro h
    simp only [List.mem_cons, List.not_mem_nil, or_false, not_or] at h
    obtain ⟨h1, h2, h3⟩ := h
    refine ⟨?_, strIn_append_right "Unknown tool: " tool⟩
    simp [call_tool, h1, h2, h3]
  · intro e he
    simp [call_tool, he]
  · intro d hd
    simp [call_tool, hd]
  · intro e he
    simp [call_tool, he]
  · intro e he
    simp [call_tool, he]
  · unfold call_tool
    split_ifs
    · cases hh : s.scrape_documentation arguments <;> simp
    · cases hh : s.search_documentation arguments <;> simp
    · cases hh : s.health_check arguments <;> simp
    · simp
  · unfold call_tool
    split_ifs
    · cases hh : s.scrape_documentation arguments <;> simp
    · cases hh : s.search_documentation arguments <;> simp
    · cases hh : s.health_check arguments <;> simp
    · simp


/-- Witness for C8: unknown tool name and a raising handler, both at concrete
inputs. -/
theorem call_tool_dispatch_witness :
    call_tool exampleServer "nope" 0 =
      { success := false, data := none, error := some "Unknown tool: nope" } ∧
    call_tool exampleServer "search_documentation" 0 =
      { success := false, data := none, error := some "boom" } := by
  constructor
  · exact ((call_tool_dispatch exampleServer "nope" 0).1 (by decide)).1
  · exact (call_tool_dispatch exampleServer "search_documentation" 0).2.1 "boom" rfl

/-- C1 counterexample.  The claim fails when the second document's dict has
no `url` key: the derived entries of `d1 = d2 = \x7bno url, title "t",
content "c"\x7d` both carry the defaulted url `""`, yet after indexing both
from the empty index the index holds TWO entries with url `""` — the removal
filter compares the raw `data.get('url')` (here `None`) with the stored
`""`, so nothing is removed. -/
theorem index_document_upsert_counterexample :
    ((index_document (index_document [] ⟨none, some "t", some "c", none, none⟩)
        ⟨none, some "t", some "c", none, none⟩).countP
      fun e => decide (e.url = (mkEntry ⟨none, some "t", some "c", none, none⟩).url)) =
      2 := by
  decide

/-- C1 amended: upsert-by-url holds whenever the second document supplies its
`url` field explicitly (`d2.url = some u`).  Then for any starting index and
any `d1` whose derived entry has the same url, after `index_document d1` then
`index_document d2` the index contains exactly one entry with that url, equal
to the entry derived from `d2`. -/
theorem index_document_upsert_by_url (index : List DocEntry) (d1 d2 : DocData)
    (u : String) (h2 : d2.url = some u) (_h1 : (mkEntry d1).url = u) :
    ((index_document (index_document index d1) d2).filter
      fun e => decide (e.url = u)) = [mkEntry d2] := by
  have hu2 : (mkEntry d2).url = u := by simp [mkEntry, h2]
  unfold index_document
  rw [List.filter_append]
  have hleft :
      (((index.filter fun doc => decide (some doc.url ≠ d1.url)) ++ [mkEntry d1]).filter
          (fun doc => decide (some doc.url ≠ d2.url))).filter
        (fun e => decide (e.url = u)) = [] := by
    rw [List.filter_filter]
    apply List.filter_eq_nil_iff.mpr
    intro e _
    simp only [h2, Bool.and_eq_true, decide_eq_true_eq, not_and, ne_eq]
    intro heq
    simp [heq]
  rw [hleft]
  simp [hu2]

/-- Witness for C1 (amended) at concrete documents sharing url `"u1"`. -/
theorem index_document_upsert_by_url_witness :
    ((index_document
        (index_document [] ⟨some "u1", some "t1", some "c1", none, none⟩)
        ⟨some "u1", some "t2", some "c2", none, none⟩).filter
      fun e => decide (e.url = "u1")) =
      [mkEntry ⟨some "u1", some "t2", some "c2", none, none⟩] :=
  index_document_upsert_by_url [] ⟨some "u1", some "t1", some "c1", none, none⟩
    ⟨some "u1", some "t2", some "c2", none, none⟩ "u1" rfl (by decide)

/-- C3 counterexample.  With one indexed entry, the empty query does NOT
return the empty sequence: `""` is a substring of every string, so the entry
scores `4` and is returned — the code has no empty-query guard. -/
theorem search_empty_query_counterexample :
    search [⟨"u", "t", "c", "", ""⟩] "" 10 ≠ [] := by
  have h : scoreResults [⟨"u", "t", "c", "", ""⟩] "" =
      [⟨⟨"u", "t", "c", "", ""⟩, 4⟩] := by decide
  simp [search, sortResults, h]

/-- C3 amended: `search` with the empty query scores every indexed entry
`3 + 1 = 4` (the empty string is a substring of both title and content) and
returns the first `max_results` entries of the index, each with score `4`;
the result is empty only when the index is empty or `max_results = 0`. -/
theorem search_empty_query_returns_corpus (index : List DocEntry) (n : Nat) :
    search index "" n = (index.map fun e => (⟨e, 4⟩ : SearchResult)).take n := by
  have hs : scoreResults index "" = index.map fun e => (⟨e, 4⟩ : SearchResult) := by
    unfold scoreResults
    induction index with
    | nil => rfl
    | cons e t ih =>
        rw [List.filterMap_cons, ih]
        simp [scoreEntry_empty_query]
  have hsorted : sortResults (index.map fun e => (⟨e, 4⟩ : SearchResult)) =
      index.map fun e => (⟨e, 4⟩ : SearchResult) := by
    apply List.mergeSort_of_sorted
    apply List.pairwise_of_forall_mem_list
    intro a ha b hb
    obtain ⟨ea, _, hae⟩ := List.mem_map.mp ha
    obtain ⟨eb, _, hbe⟩ := List.mem_map.mp hb
    simp [← hae, ← hbe]
  show (sortResults (scoreResults index "")).take n = _
  rw [hs, hsorted]

/-- Every result returned by `search` carries the score of its entry, and
that score is positive. -/
theorem mem_search_score (index : List DocEntry) (query : String) (n : Nat)
    (r : SearchResult) (hr : r ∈ search index query n) :
    r.score = scoreEntry query r.entry ∧ 0 < r.score := by
  have h1 : r ∈ sortResults (scoreResults index query) := List.mem_of_mem_take hr
  have h2 : r ∈ scoreResults index query := List.mem_mergeSort.mp h1
  obtain ⟨doc, _, hdoc⟩ := List.mem_filterMap.mp h2
  by_cases hpos : 0 < scoreEntry query doc
  · rw [if_pos hpos] at hdoc
    obtain rfl := Option.some.inj hdoc
    exact ⟨rfl, hpos⟩
  · rw [if_neg hpos] at hdoc
    exact absurd hdoc (by simp)

/-- C2.  Search scoring: the lower-cased query occurring in the lower-cased
title contributes `+3` and occurring in the lower-cased content contributes
`+1`, additively — both matches score `4`, title only `3`, content only `1`,
neither `0`; every returned result carries the (positive) score of its entry,
so an entry scoring `0` never appears in the results. -/
theorem search_scoring (query : String) (e : DocEntry) :
    (strIn (strLower query) (strLower e.title) = true →
      strIn (strLower query) (strLower e.content) = true →
      scoreEntry query e = 4) ∧
    (strIn (strLower query) (strLower e.title) = true →
      strIn (strLower query) (strLower e.content) = false →
      scoreEntry query e = 3) ∧
    (strIn (strLower query) (strLower e.title) = false →
      strIn (strLower query) (strLower e.content) = true →
      scoreEntry query e = 1) ∧
    (strIn (strLower query) (strLower e.title) = false →
      strIn (strLower query) (strLower e.content) = false →
      scoreEntry query e = 0) ∧
    (∀ index n r, r ∈ search index query n →
      r.score = scoreEntry query r.entry ∧ 0 < r.score) ∧
    (scoreEntry query e = 0 →
      ∀ index n r, r ∈ search index query n → r.entry ≠ e) := by
  refine ⟨?_, ?_, ?_, ?_,
    (fun index n r hr => mem_search_score index query n r hr), ?_⟩
  · intro h1 h2
    simp [scoreEntry, h1, h2]
  · intro h1 h2
    simp [scoreEntry, h1, h2]
  · intro h1 h2
    simp [scoreEntry, h1, h2]
  · intro h1 h2
    simp [scoreEntry, h1, h2]
  · intro h0 index n r hr heq
    obtain ⟨hs, hp⟩ := mem_search_score index query n r hr
    rw [heq, h0] at hs
    omega

/-- Witness for C2 at the query `"ab"`: entries matching in both fields, in
title only, in content only, and in neither score `4`, `3`, `1`, `0`; a
result returned for a one-entry index carries its positive score, and the
zero-scoring entry is not the entry of any returned result. -/
theorem search_scoring_witness :
    scoreEntry "ab" ⟨"u", "xaby", "ab", "", ""⟩ = 4 ∧
    scoreEntry "ab" ⟨"u", "xaby", "zz", "", ""⟩ = 3 ∧
    scoreEntry "ab" ⟨"u", "q", "ab", "", ""⟩ = 1 ∧
    scoreEntry "ab" ⟨"u", "q", "zz", "", ""⟩ = 0 ∧
    ((⟨⟨"u", "xaby", "ab", "", ""⟩, 4⟩ : SearchResult).score =
        scoreEntry "ab" (⟨⟨"u", "xaby", "ab", "", ""⟩, 4⟩ : SearchResult).entry ∧
      0 < (⟨⟨"u", "xaby", "ab", "", ""⟩, 4⟩ : SearchResult).score) ∧
    (⟨⟨"u", "xaby", "ab", "", ""⟩, 4⟩ : SearchResult).entry ≠
      ⟨"u", "q", "zz", "", ""⟩ := by
  have hmem : (⟨⟨"u", "xaby", "ab", "", ""⟩, 4⟩ : SearchResult) ∈
      search [⟨"u", "xaby", "ab", "", ""⟩] "ab" 10 := by
    have h : scoreResults [⟨"u", "xaby", "ab", "", ""⟩] "ab" =
        [⟨⟨"u", "xaby", "ab", "", ""⟩, 4⟩] := by decide
    simp [search, sortResults, h]
  exact ⟨(search_scoring "ab" _).1 (by decide) (by decide),
    (search_scoring "ab" _).2.1 (by decide) (by decide),
    (search_scoring "ab" _).2.2.1 (by decide) (by decide),
    (search_scoring "ab" _).2.2.2.1 (by decide) (by decide),
    (search_scoring "ab" ⟨"u", "q", "zz", "", ""⟩).2.2.2.2.1
      [⟨"u", "xaby", "ab", "", ""⟩] 10 _ hmem,
    (search_scoring "ab" ⟨"u", "q", "zz", "", ""⟩).2.2.2.2.2 (by decide)
      [⟨"u", "xaby", "ab", "", ""⟩] 10 _ hmem⟩

/-- The comparison used by the sort is transitive. -/
theorem sortLe_trans (a b c : SearchResult) :
    decide (b.score ≤ a.score) → decide (c.score ≤ b.score) →
    decide (c.score ≤ a.score) := by
  simp only [decide_eq_true_eq]
  omega

/-- The comparison used by the sort is total. -/
theorem sortLe_total (a b : SearchResult) :
    decide (b.score ≤ a.score) || decide (a.score ≤ b.score) := by
  simp only [Bool.or_eq_true, decide_eq_true_eq]
  omega

/-- The sorted results are pairwise descending by score. -/
theorem sortResults_pairwise (rs : List SearchResult) :
    (sortResults rs).Pairwise fun a b => b.score ≤ a.score := by
  have h := @List.sorted_mergeSort SearchResult
    (fun a b => decide (b.score ≤ a.score)) sortLe_trans sortLe_total rs
  exact h.imp fun hab => of_decide_eq_true hab

/-- Stability of the sort: restricted to any one score value, the sorted
results list equals the unsorted one. -/
theorem sortResults_filter_score (rs : List SearchResult) (s : Nat) :
    (sortResults rs).filter (fun r => decide (r.score = s)) =
      rs.filter fun r => decide (r.score = s) := by
  have hmemp : ∀ x ∈ rs.filter (fun r => decide (r.score = s)),
      (fun r => decide (r.score = s)) x = true :=
    fun x hx => (List.mem_filter.mp hx).2
  have hpair : (rs.filter fun r => decide (r.score = s)).Pairwise
      fun a b => decide (b.score ≤ a.score) := by
    apply List.pairwise_of_forall_mem_list
    intro a ha b hb
    have hsa : a.score = s := of_decide_eq_true (List.mem_filter.mp ha).2
    have hsb : b.score = s := of_decide_eq_true (List.mem_filter.mp hb).2
    simp [hsa, hsb]
  have hsub : List.Sublist (rs.filter fun r => decide (r.score = s)) (sortResults rs) :=
    List.sublist_mergeSort sortLe_trans sortLe_total hpair (List.filter_sublist rs)
  have hsub2 := hsub.filter fun r => decide (r.score = s)
  rw [List.filter_eq_self.mpr hmemp] at hsub2
  have hperm : List.Perm ((sortResults rs).filter fun r => decide (r.score = s))
      (rs.filter fun r => decide (r.score = s)) :=
    (List.mergeSort_perm rs _).filter _
  exact (hsub2.eq_of_length hperm.length_eq.symm).symm

/-- The entries of the unsorted scored results form a sublist of the index:
they occur in index order. -/
theorem scoreResults_entry_sublist (index : List DocEntry) (query : String) :
    List.Sublist ((scoreResults index query).map SearchResult.entry) index := by
  induction index with
  | nil => simp [scoreResults]
  | cons e t ih =>
      by_cases h : 0 < scoreEntry query e
      · show List.Sublist (((e :: t).filterMap _).map SearchResult.entry) (e :: t)
        rw [List.filterMap_cons, if_pos h]
        exact List.Sublist.cons₂ e ih
      · show List.Sublist (((e :: t).filterMap _).map SearchResult.entry) (e :: t)
        rw [List.filterMap_cons, if_neg h]
        exact List.Sublist.cons e ih

/-- C6.  Search ordering: the returned sequence is sorted descending by
score; the sort is stable — restricted to any one score the sorted results
equal the unsorted ones, which in turn list entries in index order; the
sequence is truncated to at most `max_results` entries (default `10`), and
`max_results = 0` yields the empty sequence. -/
theorem search_ordering (index : List DocEntry) (query : String) (n : Nat) :
    (search index query n).length ≤ n ∧
    search index query 0 = [] ∧
    (search index query n).Pairwise (fun a b => b.score ≤ a.score) ∧
    (∀ s, (sortResults (scoreResults index query)).filter
        (fun r => decide (r.score = s)) =
      (scoreResults index query).filter fun r => decide (r.score = s)) ∧
    List.Sublist ((scoreResults index query).map SearchResult.entry) index ∧
    search index query = search index query 10 := by
  refine ⟨List.length_take_le n _, rfl, ?_,
    (fun s => sortResults_filter_score _ s),
    scoreResults_entry_sublist index query, rfl⟩
  exact (sortResults_pairwise _).sublist (List.take_sublist n _)


/-- Every normal return of the `SearchTool.execute` try block is well-formed. -/
theorem searchTool_ok_wf {α δ : Type} (t : SearchToolImpl α δ) (cap : String)
    (p : Params α) (r : ToolResult δ) (h : t.executeTry cap p = .ok r) :
    wfResult r := by
  unfold SearchToolImpl.executeTry at h
  split_ifs at h <;> (repeat' split at h) <;>
    first
      | (cases h; simp [okResult, failResult, wfResult])
      | simp_all [okResult, failResult, wfResult]

/-- Every normal return of the `IndexingTool.execute` try block is
well-formed. -/
theorem indexingTool_ok_wf {α δ : Type} (t : IndexingToolImpl α δ) (cap : String)
    (p : Params α) (r : ToolResult δ) (h : t.executeTry cap p = .ok r) :
    wfResult r := by
  unfold IndexingToolImpl.executeTry at h
  split_ifs at h <;> (repeat' split at h) <;>
    first
      | (cases h; simp [okResult, failResult, wfResult])
      | simp_all [okResult, failResult, wfResult]

/-- Every normal return of the `ScrapingTool.execute` try block is
well-formed. -/
theorem scrapingTool_ok_wf {α δ : Type} (t : ScrapingToolImpl α δ) (cap : String)
    (p : Params α) (r : ToolResult δ) (h : t.executeTry cap p = .ok r) :
    wfResult r := by
  unfold ScrapingToolImpl.executeTry at h
  split_ifs at h <;> (repeat' split at h) <;>
    first
      | (cases h; simp [okResult, failResult, wfResult])
      | simp_all [okResult, failResult, wfResult]


/-- A key absent from the parameters makes `parameters.get` return `None`. -/
theorem getOpt_eq_none {α : Type} (p : Params α) (k : String)
    (h : hasKey p k = false) : getOpt p k = none := by
  unfold getOpt
  have hall : ∀ kv ∈ p, ¬ ((fun kv : String × α => decide (kv.1 = k)) kv = true) := by
    intro kv hkv
    have := (List.any_eq_false.mp h) kv hkv
    simpa using this
  rw [List.find?_eq_none.mpr hall]
  rfl

/-- A key absent from the parameters makes `parameters[key]` raise
`KeyError(key)`. -/
theorem getItem_error {α : Type} (p : Params α) (k : String)
    (h : hasKey p k = false) :
    getItem p k = .error ("\x27" ++ k ++ "\x27") := by
  unfold getItem
  rw [getOpt_eq_none p k h]

/-- A key present in the parameters makes `parameters[key]` return a value. -/
theorem getItem_ok {α : Type} (p : Params α) (k : String)
    (h : hasKey p k = true) : ∃ v, getItem p k = .ok v := by
  unfold hasKey at h
  obtain ⟨kv, hmem, hkv⟩ := List.any_eq_true.mp h
  have : (p.find? fun kv : String × α => decide (kv.1 = k)).isSome :=
    List.find?_isSome.mpr ⟨kv, hmem, hkv⟩
  obtain ⟨v, hv⟩ := Option.isSome_iff_exists.mp this
  exact ⟨v.2, by unfold getItem getOpt; rw [hv]; rfl⟩

/-- Binding `**parameters` against a signature whose first required name is
missing raises the missing-argument `TypeError`. -/
theorem pyBind_missing_head {α : Type} (k : String) (ks opt : List String)
    (kw : Bool) (p : Params α) (h : hasKey p k = false) :
    pyBind (k :: ks) opt kw p =
      .error ("missing 1 required positional argument: \x27" ++ k ++ "\x27") := by
  unfold pyBind
  have hfind : ((k :: ks).find? fun k' => ¬ hasKey p k') = some k := by
    rw [List.find?_cons_of_pos]
    simp [h]
  rw [hfind]

/-- A fault in the try block is converted by `handleExecute`, never
re-raised. -/
theorem handleExecute_error {δ : Type} (cap e : String)
    (body : Except String (ToolResult δ)) (h : body = .error e) :
    handleExecute cap body = failResult ("Error executing " ++ cap ++ ": " ++ e) := by
  rw [h]
  rfl

/-- C4.  Failure isolation of `execute`, for every tool variant (search,
indexing, scraping), every capability name and every parameter dict: the
result is always a `ToolResult` (the model is a total function — nothing
escapes the blanket `except`); an unknown capability name yields
`success=false` with error exactly `"Unknown capability: <name>"`; a fault
`e` raised during a known capability's work yields `success=false` with
error `"Error executing <name>: <e>"`, which contains the fault's message;
and every result is well-formed (`success` implies no error, failure implies
no data and an error message). -/
theorem execute_failure_isolation (α δ : Type) (ts : SearchToolImpl α δ)
    (ti : IndexingToolImpl α δ) (tc : ScrapingToolImpl α δ) (cap : String)
    (p : Params α) :
    (cap ∉ (["search", "suggest", "similar"] : List String) →
      ts.execute cap p = failResult ("Unknown capability: " ++ cap)) ∧
    (∀ e, ts.executeTry cap p = .error e →
      ts.execute cap p = failResult ("Error executing " ++ cap ++ ": " ++ e) ∧
      strIn e ("Error executing " ++ cap ++ ": " ++ e) = true) ∧
    wfResult (ts.execute cap p) ∧
    (cap ∉ (["add_document", "update_document", "remove_document",
        "get_document", "list_documents", "get_index_stats",
        "rebuild_index"] : List String) →
      ti.execute cap p = failResult ("Unknown capability: " ++ cap)) ∧
    (∀ e, ti.executeTry cap p = .error e →
      ti.execute cap p = failResult ("Error executing " ++ cap ++ ": " ++ e) ∧
      strIn e ("Error executing " ++ cap ++ ": " ++ e) = true) ∧
    wfResult (ti.execute cap p) ∧
    (cap ∉ (["scrape_url", "scrape_multiple_urls", "parse_content"] :
        List String) →
      tc.execute cap p = failResult ("Unknown capability: " ++ cap)) ∧
    (∀ e, tc.executeTry cap p = .error e →
      tc.execute cap p = failResult ("Error executing " ++ cap ++ ": " ++ e) ∧
      strIn e ("Error executing " ++ cap ++ ": " ++ e) = true) ∧
    wfResult (tc.execute cap p) := by
  refine ⟨?_, ?_, ?_, ?_, ?_, ?_, ?_, ?_, ?_⟩
  · intro h
    simp only [List.mem_cons, List.not_mem_nil, or_false, not_or] at h
    obtain ⟨h1, h2, h3⟩ := h
    simp [SearchToolImpl.execute, SearchToolImpl.executeTry, handleExecute,
      h1, h2, h3, failResult]
  · intro e he
    exact ⟨handleExecute_error cap e _ he,
      strIn_append_right ("Error executing " ++ cap ++ ": ") e⟩
  · cases he : ts.executeTry cap p with
    | ok r =>
        have : ts.execute cap p = r := by
          simp [SearchToolImpl.execute, handleExecute, he]
        rw [this]
        exact searchTool_ok_wf ts cap p r he
    | error e =>
        have : ts.execute cap p =
            failResult ("Error executing " ++ cap ++ ": " ++ e) :=
          handleExecute_error cap e _ he
        rw [this]
        simp [failResult, wfResult]
  · intro h
    simp only [List.mem_cons, List.not_mem_nil, or_false, not_or] at h
    obtain ⟨h1, h2, h3, h4, h5, h6, h7⟩ := h
    simp [IndexingToolImpl.execute, IndexingToolImpl.executeTry, handleExecute,
      h1, h2, h3, h4, h5, h6, h7, failResult]
  · intro e he
    exact ⟨handleExecute_error cap e _ he,
      strIn_append_right ("Error executing " ++ cap ++ ": ") e⟩
  · cases he : ti.executeTry cap p with
    | ok r =>
        have : ti.execute cap p = r := by
          simp [IndexingToolImpl.execute, handleExecute, he]
        rw [this]
        exact indexingTool_ok_wf ti cap p r he
    | error e =>
        have : ti.execute cap p =
            failResult ("Error executing " ++ cap ++ ": " ++ e) :=
          handleExecute_error cap e _ he
        rw [this]
        simp [failResult, wfResult]
  · intro h
    simp only [List.mem_cons, List.not_mem_nil, or_false, not_or] at h
    obtain ⟨h1, h2, h3⟩ := h
    simp [ScrapingToolImpl.execute, ScrapingToolImpl.executeTry, handleExecute,
      h1, h2, h3, failResult]
  · intro e he
    exact ⟨handleExecute_error cap e _ he,
      strIn_append_right ("Error executing " ++ cap ++ ": ") e⟩
  · cases he : tc.executeTry cap p with
    | ok r =>
        have : tc.execute cap p = r := by
          simp [ScrapingToolImpl.execute, handleExecute, he]
        rw [this]
        exact scrapingTool_ok_wf tc cap p r he
    | error e =>
        have : tc.execute cap p =
            failResult ("Error executing " ++ cap ++ ": " ++ e) :=
          handleExecute_error cap e _ he
        rw [this]
        simp [failResult, wfResult]


/-- Witness for C4: an unknown capability, a raising search behaviour, a
`KeyError` from a missing `document` parameter, and a well-formed scraping
result, all at concrete inputs. -/
theorem execute_failure_isolation_witness :
    SearchToolImpl.execute exampleSearchTool "nope" [] =
      failResult "Unknown capability: nope" ∧
    SearchToolImpl.execute exampleSearchTool "search" [("query", 0)] =
      failResult "Error executing search: boom" ∧
    IndexingToolImpl.execute exampleIndexingTool "add_document" [] =
      failResult "Error executing add_document: \x27document\x27" ∧
    wfResult (ScrapingToolImpl.execute exampleScrapingTool "parse_content" []) := by
  refine ⟨(execute_failure_isolation Nat Nat exampleSearchTool
      exampleIndexingTool exampleScrapingTool "nope" []).1 (by decide),
    ((execute_failure_isolation Nat Nat exampleSearchTool
      exampleIndexingTool exampleScrapingTool "search" [("query", 0)]).2.1
      "boom" ?_).1,
    ((execute_failure_isolation Nat Nat exampleSearchTool
      exampleIndexingTool exampleScrapingTool "add_document" []).2.2.2.2.1
      "\x27document\x27" ?_).1,
    (execute_failure_isolation Nat Nat exampleSearchTool
      exampleIndexingTool exampleScrapingTool "parse_content" []).2.2.2.2.2.2.2.2⟩
  · rfl
  · rfl

/-- A boolean conjunction with `true` that is `false` has a `false` head. -/
theorem and_true_false {b : Bool} (h : (b && true) = false) : b = false := by
  cases b
  · rfl
  · exact absurd h (by simp)

/-- When a known `SearchTool` capability fails schema validation, its whole
try block raises the same binding error for every implementation. -/
theorem searchTool_validate_fail {α δ : Type} (cap : String) (p : Params α)
    (hmem : cap ∈ (["search", "suggest", "similar"] : List String))
    (hval : validate_parameters searchCapabilities cap p = false) :
    ∃ e, ∀ t : SearchToolImpl α δ, t.executeTry cap p = .error e := by
  simp only [List.mem_cons, List.not_mem_nil, or_false] at hmem
  rcases hmem with rfl | rfl | rfl
  · have hq : hasKey p "query" = false := and_true_false hval
    refine ⟨"missing 1 required positional argument: \x27query\x27", fun t => ?_⟩
    unfold SearchToolImpl.executeTry
    rw [if_pos rfl, pyBind_missing_head "query" [] _ _ p hq]
    rfl
  · have hq : hasKey p "partial_query" = false := and_true_false hval
    refine ⟨"missing 1 required positional argument: \x27partial_query\x27",
      fun t => ?_⟩
    unfold SearchToolImpl.executeTry
    rw [if_neg (by decide), if_pos rfl, pyBind_missing_head "partial_query" [] _ _ p hq]
    rfl
  · have hq : hasKey p "document_id" = false := and_true_false hval
    refine ⟨"missing 1 required positional argument: \x27document_id\x27",
      fun t => ?_⟩
    unfold SearchToolImpl.executeTry
    rw [if_neg (by decide), if_neg (by decide), if_pos rfl,
      pyBind_missing_head "document_id" [] _ _ p hq]
    rfl

/-- When a known `IndexingTool` capability fails schema validation, its whole
try block raises the same lookup/binding error for every implementation.
(The three capabilities without a `"required"` schema key never fail
validation, so the hypothesis is vacuous for them.) -/
theorem indexingTool_validate_fail {α δ : Type} (cap : String) (p : Params α)
    (hmem : cap ∈ (["add_document", "update_document", "remove_document",
      "get_document", "list_documents", "get_index_stats",
      "rebuild_index"] : List String))
    (hval : validate_parameters indexingCapabilities cap p = false) :
    ∃ e, ∀ t : IndexingToolImpl α δ, t.executeTry cap p = .error e := by
  simp only [List.mem_cons, List.not_mem_nil, or_false] at hmem
  rcases hmem with rfl | rfl | rfl | rfl | rfl | rfl | rfl
  · have hq : hasKey p "document" = false := and_true_false hval
    refine ⟨"\x27document\x27", fun t => ?_⟩
    unfold IndexingToolImpl.executeTry
    rw [if_pos rfl, getItem_error p "document" hq]
    rfl
  · have hv2 : (hasKey p "document_id" && (hasKey p "updates" && true)) = false :=
      hval
    cases h1 : hasKey p "document_id" with
    | false =>
        refine ⟨"\x27document_id\x27", fun t => ?_⟩
        unfold IndexingToolImpl.executeTry
        rw [if_neg (by decide), if_pos rfl, getItem_error p "document_id" h1]
        rfl
    | true =>
        have h2 : hasKey p "updates" = false := by
          rw [h1] at hv2
          exact and_true_false (by simpa using hv2)
        obtain ⟨v, hv1⟩ := getItem_ok p "document_id" h1
        refine ⟨"\x27updates\x27", fun t => ?_⟩
        unfold IndexingToolImpl.executeTry
        rw [if_neg (by decide), if_pos rfl, hv1, getItem_error p "updates" h2]
        rfl
  · have hq : hasKey p "document_id" = false := and_true_false hval
    refine ⟨"\x27document_id\x27", fun t => ?_⟩
    unfold IndexingToolImpl.executeTry
    rw [if_neg (by decide), if_neg (by decide), if_pos rfl,
      getItem_error p "document_id" hq]
    rfl
  · have hq : hasKey p "document_id" = false := and_true_false hval
    refine ⟨"missing 1 required positional argument: \x27document_id\x27",
      fun t => ?_⟩
    unfold IndexingToolImpl.executeTry
    rw [if_neg (by decide), if_neg (by decide), if_neg (by decide), if_pos rfl,
      pyBind_missing_head "document_id" [] _ _ p hq]
    rfl
  · have : validate_parameters indexingCapabilities "list_documents" p = true := rfl
    rw [this] at hval
    simp at hval
  · have : validate_parameters indexingCapabilities "get_index_stats" p = true := rfl
    rw [this] at hval
    simp at hval
  · have : validate_parameters indexingCapabilities "rebuild_index" p = true := rfl
    rw [this] at hval
    simp at hval

/-- When a known `ScrapingTool` capability fails schema validation, its whole
try block raises the same binding error for every implementation. -/
theorem scrapingTool_validate_fail {α δ : Type} (cap : String) (p : Params α)
    (hmem : cap ∈ (["scrape_url", "scrape_multiple_urls", "parse_content"] :
      List String))
    (hval : validate_parameters scrapingCapabilities cap p = false) :
    ∃ e, ∀ t : ScrapingToolImpl α δ, t.executeTry cap p = .error e := by
  simp only [List.mem_cons, List.not_mem_nil, or_false] at hmem
  rcases hmem with rfl | rfl | rfl
  · have hq : hasKey p "url" = false := and_true_false hval
    refine ⟨"missing 1 required positional argument: \x27url\x27", fun t => ?_⟩
    unfold ScrapingToolImpl.executeTry
    rw [if_pos rfl, pyBind_missing_head "url" [] _ _ p hq]
    rfl
  · have hq : hasKey p "urls" = false := and_true_false hval
    refine ⟨"missing 1 required positional argument: \x27urls\x27", fun t => ?_⟩
    unfold ScrapingToolImpl.executeTry
    rw [if_neg (by decide), if_pos rfl, pyBind_missing_head "urls" [] _ _ p hq]
    rfl
  · have hq : hasKey p "html" = false := and_true_false hval
    refine ⟨"missing 1 required positional argument: \x27html\x27", fun t => ?_⟩
    unfold ScrapingToolImpl.executeTry
    rw [if_neg (by decide), if_neg (by decide), if_pos rfl,
      pyBind_missing_head "html" [] _ _ p hq]
    rfl

/-- C5.  Validation precedes execution, stated observably: for every tool
variant and every capability the tool declares, if the supplied parameters
fail `validate_parameters` against that capability's declared schema (i.e., a
schema-required key is absent), then `execute` does not invoke the
capability's behaviour — its result is identical for any two implementations
of the behaviours — and the missing-parameter fault is surfaced as a
`success=false` result with the message in `ToolResult.error`. -/
theorem execute_validates_required_params (α δ : Type) (cap : String)
    (p : Params α) :
    (∀ t t' : SearchToolImpl α δ,
      cap ∈ (["search", "suggest", "similar"] : List String) →
      validate_parameters searchCapabilities cap p = false →
      t.execute cap p = t'.execute cap p ∧
      (t.execute cap p).success = false ∧
      (t.execute cap p).error ≠ none) ∧
    (∀ t t' : IndexingToolImpl α δ,
      cap ∈ (["add_document", "update_document", "remove_document",
        "get_document", "list_documents", "get_index_stats",
        "rebuild_index"] : List String) →
      validate_parameters indexingCapabilities cap p = false →
      t.execute cap p = t'.execute cap p ∧
      (t.execute cap p).success = false ∧
      (t.execute cap p).error ≠ none) ∧
    (∀ t t' : ScrapingToolImpl α δ,
      cap ∈ (["scrape_url", "scrape_multiple_urls", "parse_content"] :
        List String) →
      validate_parameters scrapingCapabilities cap p = false →
      t.execute cap p = t'.execute cap p ∧
      (t.execute cap p).success = false ∧
      (t.execute cap p).error ≠ none) := by
  refine ⟨?_, ?_, ?_⟩
  · intro t t' hmem hval
    obtain ⟨e, he⟩ := @searchTool_validate_fail α δ cap p hmem hval
    have h1 : t.execute cap p =
        failResult ("Error executing " ++ cap ++ ": " ++ e) :=
      handleExecute_error cap e _ (he t)
    have h2 : t'.execute cap p =
        failResult ("Error executing " ++ cap ++ ": " ++ e) :=
      handleExecute_error cap e _ (he t')
    refine ⟨h1.trans h2.symm, ?_, ?_⟩
    · rw [h1]; rfl
    · rw [h1]; simp [failResult]
  · intro t t' hmem hval
    obtain ⟨e, he⟩ := @indexingTool_validate_fail α δ cap p hmem hval
    have h1 : t.execute cap p =
        failResult ("Error executing " ++ cap ++ ": " ++ e) :=
      handleExecute_error cap e _ (he t)
    have h2 : t'.execute cap p =
        failResult ("Error executing " ++ cap ++ ": " ++ e) :=
      handleExecute_error cap e _ (he t')
    refine ⟨h1.trans h2.symm, ?_, ?_⟩
    · rw [h1]; rfl
    · rw [h1]; simp [failResult]
  · intro t t' hmem hval
    obtain ⟨e, he⟩ := @scrapingTool_validate_fail α δ cap p hmem hval
    have h1 : t.execute cap p =
        failResult ("Error executing " ++ cap ++ ": " ++ e) :=
      handleExecute_error cap e _ (he t)
    have h2 : t'.execute cap p =
        failResult ("Error executing " ++ cap ++ ": " ++ e) :=
      handleExecute_error cap e _ (he t')
    refine ⟨h1.trans h2.symm, ?_, ?_⟩
    · rw [h1]; rfl
    · rw [h1]; simp [failResult]

/-- Witness for C5: with no parameters supplied, `search`, `add_document` and
`scrape_url` all fail validation, and two different implementations of each
tool produce the identical failure result without their behaviours running. -/
theorem execute_validates_required_params_witness :
    (SearchToolImpl.execute exampleSearchTool "search" [] =
        SearchToolImpl.execute exampleSearchTool2 "search" [] ∧
      (SearchToolImpl.execute exampleSearchTool "search" []).success = false ∧
      (SearchToolImpl.execute exampleSearchTool "search" []).error ≠ none) ∧
    (IndexingToolImpl.execute exampleIndexingTool "add_document" [] =
        IndexingToolImpl.execute exampleIndexingTool2 "add_document" [] ∧
      (IndexingToolImpl.execute exampleIndexingTool "add_document" []).success =
        false ∧
      (IndexingToolImpl.execute exampleIndexingTool "add_document" []).error ≠
        none) ∧
    (ScrapingToolImpl.execute exampleScrapingTool "scrape_url" [] =
        ScrapingToolImpl.execute exampleScrapingTool2 "scrape_url" [] ∧
      (ScrapingToolImpl.execute exampleScrapingTool "scrape_url" []).success =
        false ∧
      (ScrapingToolImpl.execute exampleScrapingTool "scrape_url" []).error ≠
        none) :=
  ⟨(execute_validates_required_params Nat Nat "search" []).1
      exampleSearchTool exampleSearchTool2 (by decide) (by decide),
    (execute_validates_required_params Nat Nat "add_document" []).2.1
      exampleIndexingTool exampleIndexingTool2 (by decide) (by decide),
    (execute_validates_required_params Nat Nat "scrape_url" []).2.2
      exampleScrapingTool exampleScrapingTool2 (by decide) (by decide)⟩

end DocScraper
